import Mathlib

/-!
Verification of the admission / preemption / retry / requeue scheduling core
of a container-hypervisor service (FastAPI + Celery).  The Python source is
shallowly embedded: the database session is replaced by an explicit table of
deployment records (`List Deployment`) and a list of clusters; every helper
from `app/helper.py` and every Celery task from `app/celery_worker.py` that
the scheduling core uses becomes a pure Lean function on that state.
Machine integers are modelled by `Int` (Python integers are unbounded),
floating point utilization percentages by `ℚ` with explicit rounding to two
decimal places.
-/

namespace Hypervisor

/-- Enum `DeploymentStatus` from `app/models.py`: the lifecycle states of a
deployment. -/
inductive DeploymentStatus where
  | pending
  | queued
  | running
  | preempted
  | failed
  | completed
deriving DecidableEq, Repr

/-- The `Deployment` row from `app/models.py`, restricted to the fields the
scheduling core reads or writes.  `priority` is `Option String` because the
source stores whatever string the create endpoint received (SQLModel table
models do not validate), with `None` possible; timestamps are modelled as
integers. -/
structure Deployment where
  id : String
  cluster_id : String
  priority : Option String
  requested_cpu : Int
  requested_ram : Int
  requested_gpu : Int
  status : DeploymentStatus
  attempts : Int
  max_attempts : Int
  failure_reason : Option String
  was_preempted : Bool
  preempted_count : Int
  created_at : Int
  completed_at : Option Int
deriving DecidableEq, Repr

/-- The `Cluster` row from `app/models.py`, restricted to identity and total
capacity (the only fields the scheduling core reads). -/
structure Cluster where
  id : String
  cpu : Int
  ram : Int
  gpu : Int
deriving DecidableEq, Repr

/-! Section: Priority model (`app/helper.py`, lines 12-55) -/

/-- Constant `PRIORITY_MAP` from `app/helper.py`: numeric value of each recognized
priority token, `none` for an unrecognized token (Python dict lookup miss). -/
def PRIORITY_MAP (s : String) : Option Int :=
  if s = "low" then some 0
  else if s = "medium" then some 1
  else if s = "high" then some 2
  else none

/-- Constant `DEFAULT_PRIORITY_VALUE` from `app/helper.py`. -/
def DEFAULT_PRIORITY_VALUE : Int := 1

/-- Python `str.split(sep)` for a one-character separator, over the string's
character list. -/
def splitOnChar (c : Char) : List Char → List (List Char)
  | [] => [[]]
  | x :: xs =>
    let r := splitOnChar c xs
    if x = c then [] :: r
    else
      match r with
      | [] => [[x]]
      | h :: t => (x :: h) :: t

/-- Python `str.lower` over the character list (ASCII case folding, which is
all the source's priority tokens need). -/
def lowerChars (l : List Char) : List Char := l.map Char.toLower

/-- Function `get_priority_value` from `app/helper.py` (lines 30-55): `None` defaults
to medium; a string containing a dot is parsed as an enum repr
(`parts[1].split(":")[0]`); lookup is case-insensitive; unrecognized tokens
default to medium. -/
def get_priority_value (priority : Option String) : Int :=
  match priority with
  | none => DEFAULT_PRIORITY_VALUE
  | some p =>
    let chars := p.toList
    let parts := splitOnChar '.' chars
    let chars :=
      if 1 < parts.length then
        (splitOnChar ':' ((parts.get? 1).getD [])).headD []
      else chars
    match PRIORITY_MAP (String.mk (lowerChars chars)) with
    | some v => v
    | none => DEFAULT_PRIORITY_VALUE

/-- Function `get_priority_case` from `app/helper.py` (lines 21-27): the SQL `CASE`
expression mapping the stored priority value through `PRIORITY_MAP` with
`else` the default value.  Unlike `get_priority_value` it matches the stored
string exactly (no lowering, no enum-repr parsing); a SQL `NULL` value falls
through to the `else` branch. -/
def get_priority_case (priority : Option String) : Int :=
  match priority with
  | some "low" => 0
  | some "medium" => 1
  | some "high" => 2
  | _ => DEFAULT_PRIORITY_VALUE

/-! Section: Resource Accountant (`get_cluster_resource_utilization`,
`app/helper.py` lines 58-110) -/

/-- A `{cpu, ram, gpu}` triple (the source passes these around as dicts). -/
structure Resources where
  cpu : Int
  ram : Int
  gpu : Int
deriving DecidableEq, Repr

/-- One value of the dictionary returned by
`get_cluster_resource_utilization`. -/
structure ClusterResources where
  total_resources : Resources
  used_resources : Resources
deriving DecidableEq, Repr

/-- The deployments counted as consuming capacity on cluster `cid`:
status `RUNNING` or `COMPLETED`, per the query at `app/helper.py` lines
84-88. -/
def usedDeployments (t : List Deployment) (cid : String) : List Deployment :=
  t.filter (fun d => decide (d.cluster_id = cid ∧
    (d.status = DeploymentStatus.running ∨ d.status = DeploymentStatus.completed)))

/-- Sum of an integer field over a list of deployments (the `sum(...)`
comprehensions at `app/helper.py` lines 92-94). -/
def sumBy (t : List Deployment) (f : Deployment → Int) : Int :=
  (t.map f).sum

/-- Function `get_cluster_resource_utilization` from `app/helper.py`: for every
cluster, its total capacity and the summed requests of its RUNNING or
COMPLETED deployments, keyed by cluster id. -/
def get_cluster_resource_utilization (clusters : List Cluster)
    (t : List Deployment) : List (String × ClusterResources) :=
  clusters.map (fun c =>
    let ds := usedDeployments t c.id
    (c.id,
      { total_resources := ⟨c.cpu, c.ram, c.gpu⟩
        used_resources :=
          ⟨sumBy ds (·.requested_cpu), sumBy ds (·.requested_ram),
            sumBy ds (·.requested_gpu)⟩ }))

/-- Python `dict.get`: first binding of the key, `none` when absent. -/
def dictGet (m : List (String × ClusterResources)) (k : String) :
    Option ClusterResources :=
  (m.find? (fun p => decide (p.1 = k))).map (·.2)

/-! Section: Admission Checker (`check_deployment_resources`, `app/helper.py`
lines 163-198) -/

/-- Function `check_deployment_resources` from `app/helper.py`: `(has_resources,
available_cpu, available_ram, available_gpu)`.  A missing cluster entry
(`None`, falsy in Python) yields `(False, 0, 0, 0)`. -/
def check_deployment_resources (d : Deployment)
    (cluster_resources : Option ClusterResources) : Bool × Int × Int × Int :=
  match cluster_resources with
  | none => (false, 0, 0, 0)
  | some r =>
    let available_cpu := r.total_resources.cpu - r.used_resources.cpu
    let available_ram := r.total_resources.ram - r.used_resources.ram
    let available_gpu := r.total_resources.gpu - r.used_resources.gpu
    (decide (available_cpu ≥ d.requested_cpu ∧ available_ram ≥ d.requested_ram ∧
        available_gpu ≥ d.requested_gpu),
      available_cpu, available_ram, available_gpu)

/-! Section: Preemption Planner (`find_lower_priority_running_deployments` and
`try_preemption`, `app/helper.py` lines 113-256) -/

/-- Function `find_lower_priority_running_deployments` from `app/helper.py`: all
RUNNING deployments (note: the query has **no cluster filter**) whose numeric
priority is strictly below the input priority, sorted priority-ascending.
Python's `list.sort` is stable, hence the stable `insertionSort`. -/
def find_lower_priority_running_deployments (t : List Deployment)
    (priority : Option String) : List Deployment :=
  let input_priority_value := get_priority_value priority
  let all_running := t.filter (fun d => decide (d.status = DeploymentStatus.running))
  let result := all_running.filter
    (fun d => decide (get_priority_value d.priority < input_priority_value))
  result.insertionSort
    (fun a b => get_priority_value a.priority ≤ get_priority_value b.priority)

/-- Accumulator state of the greedy scan in `try_preemption`
(`app/helper.py` lines 232-249). -/
structure ScanResult where
  potential_cpu : Int
  potential_ram : Int
  potential_gpu : Int
  preemptible : List Deployment
deriving DecidableEq, Repr

/-- The `for lpd in lower_priority_deployments` loop of `try_preemption`:
accumulate each candidate's requests onto the potentials, append it to the
preemptible set, and stop (`break`) as soon as all three potentials meet the
needs. -/
def preemptScan (cpu_needed ram_needed gpu_needed : Int) :
    Int → Int → Int → List Deployment → ScanResult
  | pc, pr, pg, [] => ⟨pc, pr, pg, []⟩
  | pc, pr, pg, lpd :: rest =>
    let pc := pc + lpd.requested_cpu
    let pr := pr + lpd.requested_ram
    let pg := pg + lpd.requested_gpu
    if pc ≥ cpu_needed ∧ pr ≥ ram_needed ∧ pg ≥ gpu_needed then
      ⟨pc, pr, pg, [lpd]⟩
    else
      let res := preemptScan cpu_needed ram_needed gpu_needed pc pr pg rest
      ⟨res.potential_cpu, res.potential_ram, res.potential_gpu,
        lpd :: res.preemptible⟩

/-- Function `try_preemption` from `app/helper.py` (lines 201-256):
`(preemption_success, preemptible_deployments)`. -/
def try_preemption (t : List Deployment) (deployment : Deployment)
    (available_cpu available_ram available_gpu : Int) :
    Bool × List Deployment :=
  let cpu_needed := deployment.requested_cpu
  let ram_needed := deployment.requested_ram
  let gpu_needed := deployment.requested_gpu
  let lower := find_lower_priority_running_deployments t deployment.priority
  let res := preemptScan cpu_needed ram_needed gpu_needed
    available_cpu available_ram available_gpu lower
  (decide (res.potential_cpu ≥ cpu_needed ∧ res.potential_ram ≥ ram_needed ∧
      res.potential_gpu ≥ gpu_needed),
    res.preemptible)

/-! Section: Preemption Executor (`execute_preemption`, `app/helper.py` lines
259-288) -/

/-- The per-victim update of `execute_preemption`: status PREEMPTED,
`was_preempted = True`, `preempted_count += 1`. -/
def preemptOne (d : Deployment) : Deployment :=
  { d with
    status := DeploymentStatus.preempted, was_preempted := true,
    preempted_count := d.preempted_count + 1 }

/-- Function `execute_preemption` from `app/helper.py` as a table update: every row
whose id is among the victims' ids is preempted (the source mutates the ORM
objects, identified by primary key, and revokes the Celery task with the same
id). -/
def execute_preemption (victims : List Deployment) (t : List Deployment) :
    List Deployment :=
  t.map (fun x =>
    if (victims.map (·.id)).contains x.id then preemptOne x else x)

/-! Section: Deployment Executor and Retry Controller (`execute_deployment` and
`handle_deployment_failure`, `app/helper.py` lines 291-359) -/

/-- Result of an execution attempt: the updated deployment row and the task
id of the retry dispatched by `process_deployment.apply_async` (if any). -/
structure FailureResult where
  deployment : Deployment
  retry_task_id : Option String
deriving DecidableEq, Repr

/-- Function `handle_deployment_failure` from `app/helper.py` (lines 334-359): mark
FAILED, record the exception text, increment `attempts`; if the incremented
`attempts` is still below `max_attempts`, dispatch a retry under the task id
`f"{deployment.id}-retry-{deployment.attempts}"`. -/
def handle_deployment_failure (d : Deployment) (exception : String) :
    FailureResult :=
  let d := { d with
    status := DeploymentStatus.failed,
    failure_reason := some exception, attempts := d.attempts + 1 }
  if d.attempts < d.max_attempts then
    { deployment := d,
      retry_task_id := some (d.id ++ "-retry-" ++ toString d.attempts) }
  else
    { deployment := d, retry_task_id := none }

/-- Function `execute_deployment` from `app/helper.py` (lines 291-331).  The actual
run is outside the model; its outcome is the `fault` argument: `none` for
success (the `try` body reaches the end and marks the row COMPLETED with the
completion timestamp `now`), `some e` for an exception with text `e`
(handed to `handle_deployment_failure`). -/
def execute_deployment (d : Deployment) (now : Int) (fault : Option String) :
    FailureResult :=
  match fault with
  | none =>
    { deployment := { d with
        status := DeploymentStatus.completed,
        completed_at := some now },
      retry_task_id := none }
  | some e => handle_deployment_failure d e

/-! Section: Orchestrator (`process_deployment`, `app/celery_worker.py` lines
32-110), modelled up to the call of the Deployment Executor -/

/-- Which exit of `process_deployment` was taken (before any execution). -/
inductive ProcOutcome where
  | notFound
  | clusterNotFound
  | deployed
  | queuedInsufficient
deriving DecidableEq, Repr

/-- State after `process_deployment` has decided admission: the updated
table, the branch taken, whether control reached `execute_deployment`
(line 103 of `app/celery_worker.py`), and the ids passed to
`execute_preemption`. -/
structure ProcResult where
  table : List Deployment
  outcome : ProcOutcome
  executor_invoked : Bool
  preempted_ids : List String
deriving DecidableEq, Repr

/-- Commit a field update of the row with id `did` (the source mutates the
ORM object fetched by primary key and commits). -/
def updateDeployment (t : List Deployment) (did : String)
    (f : Deployment → Deployment) : List Deployment :=
  t.map (fun x => if x.id = did then f x else x)

/-- Task `process_deployment` from `app/celery_worker.py`, up to (and excluding)
the `execute_deployment` call: fetch the row, resolve its cluster's
accounting, check resources, fall back to preemption, else queue. -/
def process_deployment (clusters : List Cluster) (t : List Deployment)
    (deployment_id : String) : ProcResult :=
  match t.find? (fun d => decide (d.id = deployment_id)) with
  | none => ⟨t, ProcOutcome.notFound, false, []⟩
  | some d =>
    match dictGet (get_cluster_resource_utilization clusters t) d.cluster_id with
    | none =>
      ⟨updateDeployment t d.id (fun x =>
          { x with
            status := DeploymentStatus.failed,
            failure_reason := some "Cluster not found or no resources available" }),
        ProcOutcome.clusterNotFound, false, []⟩
    | some cr =>
      let chk := check_deployment_resources d (some cr)
      if chk.1 then
        ⟨updateDeployment t d.id (fun x => { x with status := DeploymentStatus.running }),
          ProcOutcome.deployed, true, []⟩
      else
        let pre := try_preemption t d chk.2.1 chk.2.2.1 chk.2.2.2
        if pre.1 then
          ⟨updateDeployment (execute_preemption pre.2 t) d.id
              (fun x => { x with status := DeploymentStatus.running }),
            ProcOutcome.deployed, true, pre.2.map (·.id)⟩
        else
          ⟨updateDeployment t d.id (fun x => { x with status := DeploymentStatus.queued }),
            ProcOutcome.queuedInsufficient, false, []⟩

/-! Section: Requeue Sweeper (`check_queued_deployments`, `app/celery_worker.py`
lines 113-152) -/

/-- The `ORDER BY desc(priority_case), created_at` relation of the sweeper's
query: higher `get_priority_case` first, older `created_at` first within
equal priority. -/
def sweepLE (a b : Deployment) : Prop :=
  get_priority_case b.priority < get_priority_case a.priority ∨
    (get_priority_case a.priority = get_priority_case b.priority ∧
      a.created_at ≤ b.created_at)

instance : DecidableRel sweepLE := fun a b => by
  unfold sweepLE; infer_instance

/-- Task `check_queued_deployments` from `app/celery_worker.py`: the ids of all
QUEUED deployments in dispatch order (priority descending, creation time
ascending), each passed to `process_deployment.apply_async`. -/
def check_queued_deployments (t : List Deployment) : List String :=
  ((t.filter (fun d => decide (d.status = DeploymentStatus.queued))).insertionSort
    sweepLE).map (·.id)

/-- One whole run of the sweeper task: it dispatches the ids in order and
performs no write to the deployment table. -/
def check_queued_deployments_run (t : List Deployment) :
    List String × List Deployment :=
  (check_queued_deployments t, t)

/-! Section: Snapshot Recorder (`capture_resource_utilization`,
`app/celery_worker.py` lines 155-221) -/

/-- The `ClusterResourceSnapshot` row from `app/models.py`, with the float
utilization percentages modelled as rationals. -/
structure ClusterResourceSnapshot where
  cluster_id : String
  total_cpu : Int
  total_ram : Int
  total_gpu : Int
  used_cpu : Int
  used_ram : Int
  used_gpu : Int
  available_cpu : Int
  available_ram : Int
  available_gpu : Int
  cpu_utilization : ℚ
  ram_utilization : ℚ
  gpu_utilization : ℚ
deriving DecidableEq, Repr

/-- Python `round(x, 2)` modelled over `ℚ` (round to two decimal places;
the tie-breaking rule differs from Python's round-half-to-even only at exact
half-cents, which none of the claims touch). -/
def round2 (q : ℚ) : ℚ := ((round (q * 100) : ℤ) : ℚ) / 100

/-- One percentage of `capture_resource_utilization`:
`(used / total * 100) if total > 0 else 0`, then `round(•, 2)`. -/
def utilizationPct (used total : Int) : ℚ :=
  if 0 < total then round2 ((used : ℚ) / (total : ℚ) * 100) else 0

/-- Task `capture_resource_utilization` from `app/celery_worker.py`: one snapshot
row per cluster, with available floored at 0 and rounded percentages. -/
def capture_resource_utilization (clusters : List Cluster)
    (t : List Deployment) : List ClusterResourceSnapshot :=
  (get_cluster_resource_utilization clusters t).map (fun p =>
    let total := p.2.total_resources
    let used := p.2.used_resources
    { cluster_id := p.1
      total_cpu := total.cpu, total_ram := total.ram, total_gpu := total.gpu
      used_cpu := used.cpu, used_ram := used.ram, used_gpu := used.gpu
      available_cpu := max 0 (total.cpu - used.cpu)
      available_ram := max 0 (total.ram - used.ram)
      available_gpu := max 0 (total.gpu - used.gpu)
      cpu_utilization := utilizationPct used.cpu total.cpu
      ram_utilization := utilizationPct used.ram total.ram
      gpu_utilization := utilizationPct used.gpu total.gpu })

/-! Section: The automatic lifecycle of one deployment

A transition relation over a single deployment row, collecting every status
or counter update the engine can apply to it.  Dispatch of
`process_deployment` happens from exactly three places: creation
(`app/routes/deployment.py` line 95, row freshly PENDING), the requeue
sweeper (only QUEUED rows), and the retry scheduled by
`handle_deployment_failure` (only after it checked the incremented
`attempts < max_attempts`, the row then being FAILED); the manual retry
endpoint also dispatches, after resetting the row. -/

/-- A deployment in this state can be handed to `process_deployment` by the
automatic flow: it is freshly created (PENDING), held (QUEUED, picked up by
the sweeper), or FAILED with a scheduled retry (which
`handle_deployment_failure` only schedules while `attempts < max_attempts`). -/
def canAutoDispatch (d : Deployment) : Prop :=
  d.status = DeploymentStatus.pending ∨ d.status = DeploymentStatus.queued ∨
    (d.status = DeploymentStatus.failed ∧ d.attempts < d.max_attempts)

instance (d : Deployment) : Decidable (canAutoDispatch d) := by
  unfold canAutoDispatch; infer_instance

/-- All updates the engine applies to a single deployment row, each mirroring
one code path: the three exits of `process_deployment`
(`app/celery_worker.py`), the two exits of `execute_deployment` and the
preemption applied by some other admission (`app/helper.py`), and the manual
retry endpoint (`app/routes/deployment.py` lines 174-177). -/
inductive AutoStep : Deployment → Deployment → Prop where
  | runNow {d : Deployment} : canAutoDispatch d →
      AutoStep d { d with status := DeploymentStatus.running }
  | clusterMissing {d : Deployment} : canAutoDispatch d →
      AutoStep d { d with
        status := DeploymentStatus.failed,
        failure_reason := some "Cluster not found or no resources available" }
  | holdQueued {d : Deployment} : canAutoDispatch d →
      AutoStep d { d with status := DeploymentStatus.queued }
  | completeRun {d : Deployment} (now : Int) : d.status = DeploymentStatus.running →
      AutoStep d (execute_deployment d now none).deployment
  | faultRun {d : Deployment} (now : Int) (e : String) :
      d.status = DeploymentStatus.running →
      AutoStep d (execute_deployment d now (some e)).deployment
  | preemptedBy {d : Deployment} : d.status = DeploymentStatus.running →
      AutoStep d (preemptOne d)
  | manualRetry {d : Deployment} :
      d.status = DeploymentStatus.preempted ∨ d.status = DeploymentStatus.queued ∨
        d.status = DeploymentStatus.failed →
      AutoStep d { d with
        status := DeploymentStatus.pending, attempts := 0,
        failure_reason := none }

/-- A freshly created deployment (`app/routes/deployment.py` lines 79-92 with
the model defaults of `app/models.py`): PENDING, no attempts yet,
`max_attempts = 2`. -/
def DeployInit (d : Deployment) : Prop :=
  d.status = DeploymentStatus.pending ∧ d.attempts = 0 ∧ d.max_attempts = 2

instance (d : Deployment) : Decidable (DeployInit d) := by
  unfold DeployInit; infer_instance

/-- The inductive invariant for the retry bound: `attempts` never exceeds
`max_attempts`, the bound is positive, and in every status other than FAILED
at least one more attempt is still allowed. -/
def RetryInv (d : Deployment) : Prop :=
  d.attempts ≤ d.max_attempts ∧ 1 ≤ d.max_attempts ∧
    (d.status ≠ DeploymentStatus.failed → d.attempts < d.max_attempts)

/-! Section: Concrete states used as witnesses and counterexamples -/

/-- Build a deployment row with the model defaults for the retry and
preemption counters. -/
def mkDep (i cid : String) (p : Option String) (c r g : Int)
    (st : DeploymentStatus) (ca : Int := 0) : Deployment :=
  ⟨i, cid, p, c, r, g, st, 0, 2, none, false, 0, ca, none⟩

/-- A small cluster: 4 cpu, 4 ram, 0 gpu. -/
def exClusterA : Cluster := ⟨"c1", 4, 4, 0⟩

/-- A large second cluster. -/
def exClusterB : Cluster := ⟨"c2", 100, 100, 100⟩

/-- A low-priority deployment RUNNING on cluster `c2`. -/
def exVictim : Deployment := mkDep "dX" "c2" (some "low") 10 1 0 DeploymentStatus.running

/-- A high-priority candidate on cluster `c1` requesting more cpu (8) than
`c1`'s total capacity (4). -/
def exCandidate : Deployment := mkDep "dC" "c1" (some "high") 8 1 0 DeploymentStatus.pending

/-- A deployment referring to a cluster id that resolves to no cluster. -/
def exOrphan : Deployment := mkDep "w1" "ghost" (some "low") 1 1 1 DeploymentStatus.pending

/-- A one-cpu cluster, for the over-subscribed snapshot. -/
def exTinyCluster : Cluster := ⟨"c", 1, 1, 1⟩

/-- A RUNNING deployment requesting twice `exTinyCluster`'s cpu capacity. -/
def exOverSub : Deployment := mkDep "b" "c" (some "low") 2 0 0 DeploymentStatus.running

/-- A cluster with one cpu, for the preemption-failure witness. -/
def exSmallCluster : Cluster := ⟨"s", 1, 1, 1⟩

/-- A low-priority RUNNING deployment on `exSmallCluster`. -/
def exSmallVictim : Deployment := mkDep "v" "s" (some "low") 1 1 0 DeploymentStatus.running

/-- A high-priority candidate on `exSmallCluster` whose request exceeds the
cluster's total even after preempting everything. -/
def exHuge : Deployment := mkDep "h" "s" (some "high") 99 1 0 DeploymentStatus.pending

/-- A freshly created deployment row, for the retry-bound witness. -/
def exFresh : Deployment := mkDep "f" "c1" (some "medium") 1 1 0 DeploymentStatus.pending

/-! Section: General lemmas about the embedding -/

/-- Rows other than the updated one survive `updateDeployment` unchanged. -/
theorem mem_updateDeployment_of_ne {t : List Deployment} {x : Deployment}
    (did : String) (f : Deployment → Deployment) (hx : x ∈ t) (h : x.id ≠ did) :
    x ∈ updateDeployment t did f := by
  have : (if x.id = did then f x else x) ∈ updateDeployment t did f :=
    List.mem_map_of_mem _ hx
  rwa [if_neg h] at this

/-- Function `updateDeployment` preserves any field the update function does not
touch. -/
theorem map_updateDeployment {t : List Deployment} {did : String}
    {f : Deployment → Deployment} {β : Type} (g : Deployment → β)
    (hf : ∀ x, g (f x) = g x) :
    (updateDeployment t did f).map g = t.map g := by
  unfold updateDeployment
  rw [List.map_map]
  apply List.map_congr_left
  intro x _
  by_cases h : x.id = did <;> simp [h, hf]

/-- Membership in the planner's list: a scanned deployment comes from the
table, is RUNNING, and has numeric priority strictly below the input's. -/
theorem mem_find_lower (t : List Deployment) (p : Option String)
    {x : Deployment} (hx : x ∈ find_lower_priority_running_deployments t p) :
    x ∈ t ∧ x.status = DeploymentStatus.running ∧
      get_priority_value x.priority < get_priority_value p := by
  unfold find_lower_priority_running_deployments at hx
  have hx' := (List.perm_insertionSort _ _).mem_iff.mp hx
  simp only [List.mem_filter, decide_eq_true_eq] at hx'
  exact ⟨hx'.1.1, hx'.1.2, hx'.2⟩

/-- Conversely, every RUNNING row of strictly lower priority is scanned. -/
theorem mem_find_lower_of (t : List Deployment) (p : Option String)
    {x : Deployment} (hmem : x ∈ t) (hst : x.status = DeploymentStatus.running)
    (hlt : get_priority_value x.priority < get_priority_value p) :
    x ∈ find_lower_priority_running_deployments t p := by
  unfold find_lower_priority_running_deployments
  rw [(List.perm_insertionSort _ _).mem_iff]
  simp only [List.mem_filter, decide_eq_true_eq]
  exact ⟨⟨hmem, hst⟩, hlt⟩

/-- The accountant's dictionary at key `k`: the entry built from the first
cluster whose id is `k`, if any. -/
theorem dictGet_utilization (clusters : List Cluster) (t : List Deployment)
    (k : String) :
    dictGet (get_cluster_resource_utilization clusters t) k =
      (clusters.find? (fun c => decide (c.id = k))).map (fun c =>
        { total_resources := ⟨c.cpu, c.ram, c.gpu⟩
          used_resources :=
            ⟨sumBy (usedDeployments t c.id) (·.requested_cpu),
              sumBy (usedDeployments t c.id) (·.requested_ram),
              sumBy (usedDeployments t c.id) (·.requested_gpu)⟩ }) := by
  induction clusters with
  | nil => rfl
  | cons c cs ih =>
    unfold get_cluster_resource_utilization dictGet
    unfold get_cluster_resource_utilization dictGet at ih
    simp only [List.map_cons, List.find?_cons]
    by_cases h : c.id = k
    · simp [h]
    · rw [decide_eq_false h]
      exact ih

/-- If the greedy scan never reaches the break condition, it has accumulated
the whole list onto the potentials. -/
theorem preemptScan_of_not_success (nc nr ng : Int) :
    ∀ (L : List Deployment) (pc pr pg : Int),
      ¬ (nc ≤ (preemptScan nc nr ng pc pr pg L).potential_cpu ∧
          nr ≤ (preemptScan nc nr ng pc pr pg L).potential_ram ∧
          ng ≤ (preemptScan nc nr ng pc pr pg L).potential_gpu) →
      (preemptScan nc nr ng pc pr pg L).potential_cpu =
          pc + (L.map (·.requested_cpu)).sum ∧
        (preemptScan nc nr ng pc pr pg L).potential_ram =
          pr + (L.map (·.requested_ram)).sum ∧
        (preemptScan nc nr ng pc pr pg L).potential_gpu =
          pg + (L.map (·.requested_gpu)).sum := by
  intro L
  induction L with
  | nil => intro pc pr pg _; simp [preemptScan]
  | cons x xs ih =>
    intro pc pr pg hfail
    by_cases hbrk : pc + x.requested_cpu ≥ nc ∧ pr + x.requested_ram ≥ nr ∧
        pg + x.requested_gpu ≥ ng
    · exfalso
      apply hfail
      simp only [preemptScan, if_pos hbrk]
      exact ⟨hbrk.1, hbrk.2.1, hbrk.2.2⟩
    · simp only [preemptScan, if_neg hbrk] at hfail ⊢
      have := ih (pc + x.requested_cpu) (pr + x.requested_ram)
        (pg + x.requested_gpu) hfail
      simp only [List.map_cons, List.sum_cons]
      omega

/-- The greedy scan reaches the break condition iff some take-front segment
of the list, added to the initial potentials, meets all three needs — given
that every scanned deployment's requests are non-negative. -/
theorem preemptScan_success_iff (nc nr ng : Int) :
    ∀ (L : List Deployment),
      (∀ x ∈ L, 0 ≤ x.requested_cpu ∧ 0 ≤ x.requested_ram ∧ 0 ≤ x.requested_gpu) →
      ∀ pc pr pg : Int,
      ((nc ≤ (preemptScan nc nr ng pc pr pg L).potential_cpu ∧
          nr ≤ (preemptScan nc nr ng pc pr pg L).potential_ram ∧
          ng ≤ (preemptScan nc nr ng pc pr pg L).potential_gpu) ↔
        ∃ k, k ≤ L.length ∧
          nc ≤ pc + ((L.take k).map (·.requested_cpu)).sum ∧
          nr ≤ pr + ((L.take k).map (·.requested_ram)).sum ∧
          ng ≤ pg + ((L.take k).map (·.requested_gpu)).sum) := by
  intro L
  induction L with
  | nil =>
    intro _ pc pr pg
    constructor
    · intro h
      exact ⟨0, by simp, by simpa [preemptScan] using h⟩
    · rintro ⟨k, -, h⟩
      simpa [preemptScan] using h
  | cons x xs ih =>
    intro hn pc pr pg
    by_cases hbrk : pc + x.requested_cpu ≥ nc ∧ pr + x.requested_ram ≥ nr ∧
        pg + x.requested_gpu ≥ ng
    · simp only [preemptScan, if_pos hbrk]
      constructor
      · intro _
        refine ⟨1, by simp, ?_, ?_, ?_⟩
        · simpa using hbrk.1
        · simpa using hbrk.2.1
        · simpa using hbrk.2.2
      · intro _
        exact ⟨hbrk.1, hbrk.2.1, hbrk.2.2⟩
    · simp only [preemptScan, if_neg hbrk]
      rw [ih (fun x hx => hn x (List.mem_cons_of_mem _ hx))]
      constructor
      · rintro ⟨k, hk, h1, h2, h3⟩
        refine ⟨k + 1, by simpa using hk, ?_, ?_, ?_⟩ <;>
          simp only [List.take_succ_cons, List.map_cons, List.sum_cons] <;> omega
      · rintro ⟨k, hk, h1, h2, h3⟩
        match k with
        | 0 =>
          exfalso
          apply hbrk
          have hx := hn x (List.mem_cons_self _ _)
          simp only [List.take_zero, List.map_nil, List.sum_nil, add_zero] at h1 h2 h3
          omega
        | j + 1 =>
          refine ⟨j, by simpa using hk, ?_, ?_, ?_⟩ <;>
            simp only [List.take_succ_cons, List.map_cons, List.sum_cons] at h1 h2 h3 <;>
            omega

/-- The failure handler's row update, with the retry branching removed. -/
theorem handle_deployment_failure_deployment (d : Deployment) (e : String) :
    (handle_deployment_failure d e).deployment =
      { d with
        status := DeploymentStatus.failed, failure_reason := some e,
        attempts := d.attempts + 1 } := by
  unfold handle_deployment_failure
  dsimp only
  split <;> rfl

/-- Every step of the automatic lifecycle preserves the retry invariant. -/
theorem retryInv_step {d d' : Deployment} (h : AutoStep d d')
    (hi : RetryInv d) : RetryInv d' := by
  obtain ⟨h1, h2, h3⟩ := hi
  cases h with
  | runNow hd =>
    refine ⟨h1, h2, fun _ => ?_⟩
    rcases hd with h | h | ⟨h, hlt⟩
    · exact h3 (by rw [h]; exact fun he => DeploymentStatus.noConfusion he)
    · exact h3 (by rw [h]; exact fun he => DeploymentStatus.noConfusion he)
    · exact hlt
  | clusterMissing hd =>
    exact ⟨h1, h2, fun hne => absurd rfl hne⟩
  | holdQueued hd =>
    refine ⟨h1, h2, fun _ => ?_⟩
    rcases hd with h | h | ⟨h, hlt⟩
    · exact h3 (by rw [h]; exact fun he => DeploymentStatus.noConfusion he)
    · exact h3 (by rw [h]; exact fun he => DeploymentStatus.noConfusion he)
    · exact hlt
  | completeRun now hd =>
    have hlt : d.attempts < d.max_attempts :=
      h3 (by rw [hd]; exact fun he => DeploymentStatus.noConfusion he)
    exact ⟨le_of_lt hlt, h2, fun _ => hlt⟩
  | faultRun now e hd =>
    have hlt : d.attempts < d.max_attempts :=
      h3 (by rw [hd]; exact fun he => DeploymentStatus.noConfusion he)
    rw [show execute_deployment d now (some e) = handle_deployment_failure d e
        from rfl, handle_deployment_failure_deployment]
    refine ⟨?_, h2, fun hne => absurd rfl hne⟩
    dsimp only
    omega
  | preemptedBy hd =>
    have hlt : d.attempts < d.max_attempts :=
      h3 (by rw [hd]; exact fun he => DeploymentStatus.noConfusion he)
    exact ⟨h1, h2, fun _ => hlt⟩
  | manualRetry hd =>
    refine ⟨?_, h2, fun _ => ?_⟩ <;> dsimp only <;> omega

instance : IsTotal Deployment sweepLE :=
  ⟨fun a b => by
    unfold sweepLE
    rcases lt_trichotomy (get_priority_case a.priority) (get_priority_case b.priority)
      with h | h | h
    · exact Or.inr (Or.inl h)
    · rcases Int.le_total a.created_at b.created_at with hc | hc
      · exact Or.inl (Or.inr ⟨h, hc⟩)
      · exact Or.inr (Or.inr ⟨h.symm, hc⟩)
    · exact Or.inl (Or.inl h)⟩

instance : IsTrans Deployment sweepLE :=
  ⟨fun a b c hab hbc => by
    unfold sweepLE at *
    rcases hab with h1 | ⟨h1, h1c⟩ <;> rcases hbc with h2 | ⟨h2, h2c⟩
    · exact Or.inl (by omega)
    · exact Or.inl (by omega)
    · exact Or.inl (by omega)
    · exact Or.inr ⟨by omega, by omega⟩⟩

/-- Inserting an element equivalent to every element satisfying `p` puts it
in front of all of them: the `p`-filtered result is `x` followed by the
`p`-filtered input. -/
theorem filter_orderedInsert {α : Type} (r : α → α → Prop) [DecidableRel r]
    (p : α → Bool) (x : α) (hx : p x = true)
    (hcomp : ∀ b, p b = true → r x b) :
    ∀ s : List α, (s.orderedInsert r x).filter p = x :: s.filter p := by
  intro s
  induction s with
  | nil => simp [List.orderedInsert, hx]
  | cons b s ih =>
    by_cases hr : r x b
    · rw [List.orderedInsert, if_pos hr]
      simp [hx]
    · rw [List.orderedInsert, if_neg hr]
      cases hpb : p b with
      | true => exact absurd (hcomp b hpb) hr
      | false => simp [hpb, ih]

/-- Inserting an element not satisfying `p` leaves the `p`-filtered list
unchanged. -/
theorem filter_orderedInsert_of_neg {α : Type} (r : α → α → Prop)
    [DecidableRel r] (p : α → Bool) (x : α) (hx : p x = false) :
    ∀ s : List α, (s.orderedInsert r x).filter p = s.filter p := by
  intro s
  induction s with
  | nil => simp [List.orderedInsert, hx]
  | cons b s ih =>
    by_cases hr : r x b
    · rw [List.orderedInsert, if_pos hr]
      simp [hx]
    · rw [List.orderedInsert, if_neg hr]
      simp only [List.filter_cons, ih]

/-- Stability of insertion sort: elements that are pairwise equivalent under
`r` keep their original relative order (their `p`-filtered subsequence is
untouched). -/
theorem filter_insertionSort {α : Type} (r : α → α → Prop) [DecidableRel r]
    (p : α → Bool) (hcomp : ∀ a b, p a = true → p b = true → r a b) :
    ∀ l : List α, (l.insertionSort r).filter p = l.filter p := by
  intro l
  induction l with
  | nil => rfl
  | cons x xs ih =>
    rw [List.insertionSort]
    cases hpx : p x with
    | true =>
      rw [filter_orderedInsert r p x hpx (fun b hb => hcomp x b hpx hb), ih]
      simp [hpx]
    | false =>
      rw [filter_orderedInsert_of_neg r p x hpx, ih]
      simp [hpx]

/-- Rounding to the nearest integer is monotone. -/
theorem round_le_round {x y : ℚ} (h : x ≤ y) : round x ≤ round y := by
  rw [round_eq, round_eq]
  exact Int.floor_mono (by linarith)

/-- Applying `round2` to a non-negative rational is non-negative. -/
theorem round2_nonneg {q : ℚ} (h : 0 ≤ q) : 0 ≤ round2 q := by
  unfold round2
  apply div_nonneg _ (by norm_num)
  have h0 : round ((0 : ℤ) : ℚ) ≤ round (q * 100) :=
    round_le_round (by push_cast; linarith)
  rw [round_intCast] at h0
  exact_mod_cast h0

/-- Applying `round2` to a rational at most 100 stays at most 100. -/
theorem round2_le_100 {q : ℚ} (h : q ≤ 100) : round2 q ≤ 100 := by
  unfold round2
  rw [div_le_iff₀ (by norm_num : (0 : ℚ) < 100)]
  have h0 : round (q * 100) ≤ round (((10000 : ℤ) : ℚ)) :=
    round_le_round (by push_cast; linarith)
  rw [round_intCast] at h0
  have h1 : ((round (q * 100) : ℤ) : ℚ) ≤ 10000 := by exact_mod_cast h0
  linarith

/-- A summed deployment field is non-negative when every summand is. -/
theorem sumBy_nonneg (t : List Deployment) (f : Deployment → Int)
    (h : ∀ x ∈ t, 0 ≤ f x) : 0 ≤ sumBy t f := by
  apply List.sum_nonneg
  intro a ha
  obtain ⟨x, hx, rfl⟩ := List.mem_map.mp ha
  exact h x hx

/-- The recorded percentage is non-negative whenever the usage is. -/
theorem utilizationPct_nonneg (used total : Int) (h : 0 ≤ used) :
    0 ≤ utilizationPct used total := by
  unfold utilizationPct
  split_ifs with ht
  · apply round2_nonneg
    have h1 : (0 : ℚ) ≤ (used : ℚ) := by exact_mod_cast h
    have h2 : (0 : ℚ) ≤ (total : ℚ) := by exact_mod_cast le_of_lt ht
    positivity
  · exact le_refl 0

/-- The recorded percentage is at most 100 when usage does not exceed
capacity. -/
theorem utilizationPct_le_100 (used total : Int)
    (h : used ≤ total) : utilizationPct used total ≤ 100 := by
  unfold utilizationPct
  split_ifs with ht
  · apply round2_le_100
    have htq : (0 : ℚ) < (total : ℚ) := by exact_mod_cast ht
    rw [div_mul_eq_mul_div, div_le_iff₀ htq]
    have huq : (used : ℚ) ≤ (total : ℚ) := by exact_mod_cast h
    linarith
  · norm_num

/-! Section: The claims -/

/-- C1: the claim states that every workload selected by the Preemption
Planner is RUNNING, of strictly lower priority, **and on the candidate's
cluster**.  The code violates the cluster part:
`find_lower_priority_running_deployments` (`app/helper.py` lines 132-136)
queries all RUNNING deployments with no cluster filter, so the planner
selects the low-priority victim `dX` running on cluster `c2` for the
candidate `dC` on cluster `c1`, counts `dX`'s resources toward `c1`'s
deficit, and the orchestrator then preempts `dX` and marks `dC` RUNNING even
though `dC` requests 8 cpu on a cluster with total capacity 4. -/
theorem C1_cross_cluster_preemption :
    exVictim ∈ find_lower_priority_running_deployments
        [exCandidate, exVictim] exCandidate.priority ∧
    exVictim.cluster_id ≠ exCandidate.cluster_id ∧
    (process_deployment [exClusterA, exClusterB] [exCandidate, exVictim]
        "dC").preempted_ids = ["dX"] ∧
    (process_deployment [exClusterA, exClusterB] [exCandidate, exVictim]
        "dC").outcome = ProcOutcome.deployed ∧
    exCandidate.requested_cpu > exClusterA.cpu := by
  decide

/-- C6: on an execution fault the Retry Controller increments `attempts` by
exactly one, records the fault description, sets FAILED, and dispatches a
retry, under the task id built from the workload id and the new attempt
number, exactly when the incremented `attempts` is still below
`max_attempts`. -/
theorem C6_retry_controller (d : Deployment) (e : String) :
    (handle_deployment_failure d e).deployment.attempts = d.attempts + 1 ∧
    (handle_deployment_failure d e).deployment.failure_reason = some e ∧
    (handle_deployment_failure d e).deployment.status = DeploymentStatus.failed ∧
    ((handle_deployment_failure d e).retry_task_id =
        some (d.id ++ "-retry-" ++ toString (d.attempts + 1)) ↔
      d.attempts + 1 < d.max_attempts) ∧
    ((handle_deployment_failure d e).retry_task_id = none ↔
      ¬ d.attempts + 1 < d.max_attempts) := by
  unfold handle_deployment_failure
  by_cases h : d.attempts + 1 < d.max_attempts <;> simp [h]

/-- C10: successful execution only moves the status to COMPLETED and sets
the completion timestamp; every other field — in particular `attempts` and
`failure_reason` from an earlier failed attempt — is carried over unchanged,
and no retry is dispatched. -/
theorem C10_success_frame (d : Deployment) (now : Int) :
    (execute_deployment d now none).deployment.status = DeploymentStatus.completed ∧
    (execute_deployment d now none).deployment.completed_at = some now ∧
    (execute_deployment d now none).deployment.attempts = d.attempts ∧
    (execute_deployment d now none).deployment.failure_reason = d.failure_reason ∧
    (execute_deployment d now none).deployment.id = d.id ∧
    (execute_deployment d now none).deployment.cluster_id = d.cluster_id ∧
    (execute_deployment d now none).deployment.priority = d.priority ∧
    (execute_deployment d now none).deployment.requested_cpu = d.requested_cpu ∧
    (execute_deployment d now none).deployment.requested_ram = d.requested_ram ∧
    (execute_deployment d now none).deployment.requested_gpu = d.requested_gpu ∧
    (execute_deployment d now none).deployment.max_attempts = d.max_attempts ∧
    (execute_deployment d now none).deployment.was_preempted = d.was_preempted ∧
    (execute_deployment d now none).deployment.preempted_count = d.preempted_count ∧
    (execute_deployment d now none).deployment.created_at = d.created_at ∧
    (execute_deployment d now none).retry_task_id = none := by
  unfold execute_deployment
  simp

/-- C8: along every run of the automatic lifecycle from a freshly created
row (PENDING, `attempts = 0`, `max_attempts = 2`, with manual retry
resetting `attempts` to 0), `attempts` never exceeds `max_attempts`, and
once it reaches `max_attempts` the status is FAILED and the row is in no
state the automatic flow dispatches again. -/
theorem C8_attempts_bound (d0 d : Deployment) (h0 : DeployInit d0)
    (hr : Relation.ReflTransGen AutoStep d0 d) :
    d.attempts ≤ d.max_attempts ∧
    (d.attempts = d.max_attempts →
      d.status = DeploymentStatus.failed ∧ ¬ canAutoDispatch d) := by
  have hinv : RetryInv d := by
    induction hr with
    | refl =>
      obtain ⟨hs, ha, hm⟩ := h0
      exact ⟨by omega, by omega, fun _ => by omega⟩
    | tail _ step ih => exact retryInv_step step ih
  obtain ⟨h1, h2, h3⟩ := hinv
  refine ⟨h1, fun heq => ?_⟩
  have hst : d.status = DeploymentStatus.failed := by
    by_contra hne
    have := h3 hne
    omega
  refine ⟨hst, fun hd => ?_⟩
  rcases hd with h | h | ⟨-, hlt⟩
  · rw [hst] at h; exact DeploymentStatus.noConfusion h
  · rw [hst] at h; exact DeploymentStatus.noConfusion h
  · omega

/-- C8 witness: the freshly created row itself (the reflexive run). -/
theorem C8_attempts_bound_witness :
    DeployInit exFresh ∧
    (exFresh.attempts ≤ exFresh.max_attempts ∧
      (exFresh.attempts = exFresh.max_attempts →
        exFresh.status = DeploymentStatus.failed ∧ ¬ canAutoDispatch exFresh)) :=
  ⟨by decide, C8_attempts_bound exFresh exFresh (by decide) Relation.ReflTransGen.refl⟩

/-- C4 (counterexample): the snapshot's percentages are not clamped above
100: a cluster with 1 cpu carrying a RUNNING workload that requested 2 cpu
is recorded with `cpu_utilization = 200`. -/
theorem C4_utilization_counterexample :
    (capture_resource_utilization [exTinyCluster] [exOverSub]).map
        (·.cpu_utilization) = [utilizationPct 2 1] ∧
    utilizationPct 2 1 = 200 ∧
    ¬ utilizationPct 2 1 ≤ 100 := by
  have h1 : utilizationPct 2 1 = 200 := by
    unfold utilizationPct
    rw [if_pos (by norm_num : (0 : Int) < 1)]
    unfold round2
    rw [show ((2 : Int) : ℚ) / ((1 : Int) : ℚ) * 100 * 100 = ((20000 : ℤ) : ℚ) by
      norm_num, round_intCast]
    norm_num
  refine ⟨rfl, h1, ?_⟩
  rw [h1]
  norm_num

/-- C4 (amended): every snapshot records each percentage as
`used/total × 100` rounded to two decimals, with the value 0 when the total
is 0 or negative; when all requested resources are non-negative each
percentage is at least 0, and it is at most 100 whenever that dimension's
usage does not exceed the total — but it may exceed 100 on an
over-subscribed cluster. -/
theorem C4_utilization_bounds (clusters : List Cluster) (t : List Deployment)
    (hn : ∀ d ∈ t, 0 ≤ d.requested_cpu ∧ 0 ≤ d.requested_ram ∧ 0 ≤ d.requested_gpu) :
    ∀ s ∈ capture_resource_utilization clusters t,
      (s.cpu_utilization = utilizationPct s.used_cpu s.total_cpu ∧
        s.ram_utilization = utilizationPct s.used_ram s.total_ram ∧
        s.gpu_utilization = utilizationPct s.used_gpu s.total_gpu) ∧
      (0 ≤ s.cpu_utilization ∧ 0 ≤ s.ram_utilization ∧ 0 ≤ s.gpu_utilization) ∧
      ((s.used_cpu ≤ s.total_cpu → s.cpu_utilization ≤ 100) ∧
        (s.used_ram ≤ s.total_ram → s.ram_utilization ≤ 100) ∧
        (s.used_gpu ≤ s.total_gpu → s.gpu_utilization ≤ 100)) := by
  intro s hs
  unfold capture_resource_utilization at hs
  obtain ⟨p, hp, rfl⟩ := List.mem_map.mp hs
  unfold get_cluster_resource_utilization at hp
  obtain ⟨c, _, rfl⟩ := List.mem_map.mp hp
  have hcpu : 0 ≤ sumBy (usedDeployments t c.id) (·.requested_cpu) :=
    sumBy_nonneg _ _ (fun x hx => (hn x (List.mem_of_mem_filter hx)).1)
  have hram : 0 ≤ sumBy (usedDeployments t c.id) (·.requested_ram) :=
    sumBy_nonneg _ _ (fun x hx => (hn x (List.mem_of_mem_filter hx)).2.1)
  have hgpu : 0 ≤ sumBy (usedDeployments t c.id) (·.requested_gpu) :=
    sumBy_nonneg _ _ (fun x hx => (hn x (List.mem_of_mem_filter hx)).2.2)
  refine ⟨⟨rfl, rfl, rfl⟩, ⟨?_, ?_, ?_⟩, ?_, ?_, ?_⟩
  · exact utilizationPct_nonneg _ _ hcpu
  · exact utilizationPct_nonneg _ _ hram
  · exact utilizationPct_nonneg _ _ hgpu
  · exact fun h => utilizationPct_le_100 _ _ h
  · exact fun h => utilizationPct_le_100 _ _ h
  · exact fun h => utilizationPct_le_100 _ _ h

/-- C4 witness: the tiny-cluster state (all requests non-negative); the ram
dimension of its snapshot (used 0 of total 1) is within bounds. -/
theorem C4_utilization_bounds_witness :
    (∀ d ∈ [exOverSub],
      0 ≤ d.requested_cpu ∧ 0 ≤ d.requested_ram ∧ 0 ≤ d.requested_gpu) ∧
    (∀ s ∈ capture_resource_utilization [exTinyCluster] [exOverSub],
      0 ≤ s.ram_utilization ∧ (s.used_ram ≤ s.total_ram → s.ram_utilization ≤ 100)) := by
  refine ⟨by decide, fun s hs => ?_⟩
  have h := C4_utilization_bounds [exTinyCluster] [exOverSub] (by decide) s hs
  exact ⟨h.2.1.2.1, h.2.2.2.1⟩

/-- C9: the Requeue Sweeper dispatches exactly the ids of the QUEUED
workloads; the dispatch order is the QUEUED rows sorted by the
priority-descending / creation-time-ascending relation `sweepLE`, the sort
is stable (rows with equal priority value and equal creation time keep their
table order), the sweep writes nothing to the table, and a second sweep
over the resulting state produces the same dispatch order. -/
theorem C9_requeue_sweeper (t : List Deployment) :
    (check_queued_deployments t).Perm
      ((t.filter (fun d => decide (d.status = DeploymentStatus.queued))).map (·.id)) ∧
    check_queued_deployments t =
      ((t.filter (fun d => decide (d.status = DeploymentStatus.queued))).insertionSort
        sweepLE).map (·.id) ∧
    List.Sorted sweepLE
      ((t.filter (fun d => decide (d.status = DeploymentStatus.queued))).insertionSort
        sweepLE) ∧
    (∀ k c : Int,
      ((t.filter (fun d => decide (d.status = DeploymentStatus.queued))).insertionSort
          sweepLE).filter
        (fun d => decide (get_priority_case d.priority = k ∧ d.created_at = c)) =
      (t.filter (fun d => decide (d.status = DeploymentStatus.queued))).filter
        (fun d => decide (get_priority_case d.priority = k ∧ d.created_at = c))) ∧
    (check_queued_deployments_run t).2 = t ∧
    (check_queued_deployments_run ((check_queued_deployments_run t).2)).1 =
      (check_queued_deployments_run t).1 := by
  refine ⟨?_, rfl, ?_, ?_, rfl, rfl⟩
  · exact (List.perm_insertionSort _ _).map _
  · exact List.sorted_insertionSort _ _
  · intro k c
    apply filter_insertionSort
    intro a b ha hb
    simp only [decide_eq_true_eq] at ha hb
    exact Or.inr ⟨by omega, by omega⟩

/-- C7 (counterexample): on the cluster-not-found path the recorded failure
reason is the string "Cluster not found or no resources available"
(`app/celery_worker.py` line 61), not the claim's fixed string
"cluster not found". -/
theorem C7_reason_counterexample :
    (process_deployment [] [exOrphan] "w1").table.map (·.failure_reason) =
      [some "Cluster not found or no resources available"] ∧
    some "cluster not found" ∉
      (process_deployment [] [exOrphan] "w1").table.map (·.failure_reason) := by
  decide

/-- C7 (amended): when the orchestrator cannot resolve the workload's
cluster it sets status FAILED with the fixed failure reason
"Cluster not found or no resources available", leaves every row's `attempts`
counter unchanged, preempts nothing, and never reaches the Deployment
Executor (hence no retry is scheduled: retries are dispatched only by
`handle_deployment_failure`, which only the executor calls). -/
theorem C7_cluster_not_found (clusters : List Cluster) (t : List Deployment)
    (did : String) (d : Deployment)
    (hfind : t.find? (fun x => decide (x.id = did)) = some d)
    (hcr : dictGet (get_cluster_resource_utilization clusters t) d.cluster_id = none) :
    (process_deployment clusters t did).outcome = ProcOutcome.clusterNotFound ∧
    (process_deployment clusters t did).table =
      updateDeployment t d.id (fun x =>
        { x with
          status := DeploymentStatus.failed,
          failure_reason := some "Cluster not found or no resources available" }) ∧
    (process_deployment clusters t did).table.map (·.attempts) =
      t.map (·.attempts) ∧
    (process_deployment clusters t did).executor_invoked = false ∧
    (process_deployment clusters t did).preempted_ids = [] := by
  unfold process_deployment
  rw [hfind]
  simp only [hcr]
  refine ⟨?_, ?_, ?_, ?_, ?_⟩ <;>
    first
      | trivial
      | exact map_updateDeployment _ (fun x => rfl)

/-- C2: when the candidate's cluster resolves, the Admission Checker admits
exactly when, on each of the cpu, ram and gpu dimensions, the cluster's
total capacity minus the sum of requested resources over that cluster's
RUNNING-or-COMPLETED workloads is at least the candidate's request. -/
theorem C2_admission_checker (clusters : List Cluster) (t : List Deployment)
    (d : Deployment) (c : Cluster)
    (hc : clusters.find? (fun x => decide (x.id = d.cluster_id)) = some c) :
    (check_deployment_resources d
        (dictGet (get_cluster_resource_utilization clusters t) d.cluster_id)).1 = true ↔
      (d.requested_cpu ≤ c.cpu -
          ((t.filter (fun x => decide (x.cluster_id = d.cluster_id ∧
            (x.status = DeploymentStatus.running ∨
              x.status = DeploymentStatus.completed)))).map (·.requested_cpu)).sum ∧
        d.requested_ram ≤ c.ram -
          ((t.filter (fun x => decide (x.cluster_id = d.cluster_id ∧
            (x.status = DeploymentStatus.running ∨
              x.status = DeploymentStatus.completed)))).map (·.requested_ram)).sum ∧
        d.requested_gpu ≤ c.gpu -
          ((t.filter (fun x => decide (x.cluster_id = d.cluster_id ∧
            (x.status = DeploymentStatus.running ∨
              x.status = DeploymentStatus.completed)))).map (·.requested_gpu)).sum) := by
  have hid : c.id = d.cluster_id := by
    simpa using List.find?_some hc
  rw [dictGet_utilization, hc]
  simp [check_deployment_resources, usedDeployments, sumBy, hid, ge_iff_le]

/-- C2 witness: a cluster with capacity (10,10,10), one RUNNING workload
using (3,3,3), and a candidate requesting (7,7,7) is admitted. -/
theorem C2_admission_checker_witness :
    ([(⟨"w", 10, 10, 10⟩ : Cluster)].find? (fun x =>
        decide (x.id = (mkDep "n" "w" (some "medium") 7 7 7
          DeploymentStatus.pending).cluster_id)) = some ⟨"w", 10, 10, 10⟩) ∧
    (check_deployment_resources (mkDep "n" "w" (some "medium") 7 7 7 DeploymentStatus.pending)
      (dictGet
        (get_cluster_resource_utilization [⟨"w", 10, 10, 10⟩]
          [mkDep "r" "w" (some "low") 3 3 3 DeploymentStatus.running])
        (mkDep "n" "w" (some "medium") 7 7 7 DeploymentStatus.pending).cluster_id)).1 = true := by
  refine ⟨by decide, ?_⟩
  exact (C2_admission_checker [⟨"w", 10, 10, 10⟩]
    [mkDep "r" "w" (some "low") 3 3 3 DeploymentStatus.running]
    (mkDep "n" "w" (some "medium") 7 7 7 DeploymentStatus.pending)
    ⟨"w", 10, 10, 10⟩ (by decide)).mpr (by decide)

/-- C3: for non-negative resource requests, the Preemption Planner reports
success iff some take-front segment of the priority-ascending
lower-priority RUNNING list, added to the pre-preemption availables, meets
all three needs; on failure even the whole list falls short on some
dimension. -/
theorem C3_preemption_planner (t : List Deployment) (d : Deployment)
    (ac ar ag : Int)
    (hn : ∀ x ∈ find_lower_priority_running_deployments t d.priority,
      0 ≤ x.requested_cpu ∧ 0 ≤ x.requested_ram ∧ 0 ≤ x.requested_gpu) :
    ((try_preemption t d ac ar ag).1 = true ↔
      ∃ k, k ≤ (find_lower_priority_running_deployments t d.priority).length ∧
        d.requested_cpu ≤ ac +
          (((find_lower_priority_running_deployments t d.priority).take k).map
            (·.requested_cpu)).sum ∧
        d.requested_ram ≤ ar +
          (((find_lower_priority_running_deployments t d.priority).take k).map
            (·.requested_ram)).sum ∧
        d.requested_gpu ≤ ag +
          (((find_lower_priority_running_deployments t d.priority).take k).map
            (·.requested_gpu)).sum) ∧
    ((try_preemption t d ac ar ag).1 = false →
      ac + ((find_lower_priority_running_deployments t d.priority).map
          (·.requested_cpu)).sum < d.requested_cpu ∨
      ar + ((find_lower_priority_running_deployments t d.priority).map
          (·.requested_ram)).sum < d.requested_ram ∨
      ag + ((find_lower_priority_running_deployments t d.priority).map
          (·.requested_gpu)).sum < d.requested_gpu) := by
  have hsucc : (try_preemption t d ac ar ag).1 = true ↔
      (d.requested_cpu ≤ (preemptScan d.requested_cpu d.requested_ram d.requested_gpu
          ac ar ag (find_lower_priority_running_deployments t d.priority)).potential_cpu ∧
        d.requested_ram ≤ (preemptScan d.requested_cpu d.requested_ram d.requested_gpu
          ac ar ag (find_lower_priority_running_deployments t d.priority)).potential_ram ∧
        d.requested_gpu ≤ (preemptScan d.requested_cpu d.requested_ram d.requested_gpu
          ac ar ag (find_lower_priority_running_deployments t d.priority)).potential_gpu) := by
    unfold try_preemption
    simp [ge_iff_le]
  constructor
  · rw [hsucc]
    exact preemptScan_success_iff d.requested_cpu d.requested_ram d.requested_gpu
      (find_lower_priority_running_deployments t d.priority) hn ac ar ag
  · intro hfail
    have hf : ¬ (d.requested_cpu ≤ (preemptScan d.requested_cpu d.requested_ram
          d.requested_gpu ac ar ag
          (find_lower_priority_running_deployments t d.priority)).potential_cpu ∧
        d.requested_ram ≤ (preemptScan d.requested_cpu d.requested_ram d.requested_gpu
          ac ar ag (find_lower_priority_running_deployments t d.priority)).potential_ram ∧
        d.requested_gpu ≤ (preemptScan d.requested_cpu d.requested_ram d.requested_gpu
          ac ar ag (find_lower_priority_running_deployments t d.priority)).potential_gpu) := by
      intro hcond
      rw [← hsucc] at hcond
      rw [hcond] at hfail
      exact Bool.noConfusion hfail
    have := preemptScan_of_not_success d.requested_cpu d.requested_ram d.requested_gpu
      (find_lower_priority_running_deployments t d.priority) ac ar ag hf
    omega

/-- C3 witness: the small-cluster state where even preempting the single
low-priority RUNNING workload leaves 0 + 1 + 1 = 2 < 99 cpu.  The planner
reports failure, no segment suffices, and the whole list falls short. -/
theorem C3_preemption_planner_witness :
    (∀ x ∈ find_lower_priority_running_deployments [exHuge, exSmallVictim]
        exHuge.priority,
      0 ≤ x.requested_cpu ∧ 0 ≤ x.requested_ram ∧ 0 ≤ x.requested_gpu) ∧
    ((try_preemption [exHuge, exSmallVictim] exHuge 0 0 1).1 = false →
      (0 : Int) + ((find_lower_priority_running_deployments [exHuge, exSmallVictim]
          exHuge.priority).map (·.requested_cpu)).sum < exHuge.requested_cpu ∨
      (0 : Int) + ((find_lower_priority_running_deployments [exHuge, exSmallVictim]
          exHuge.priority).map (·.requested_ram)).sum < exHuge.requested_ram ∨
      (1 : Int) + ((find_lower_priority_running_deployments [exHuge, exSmallVictim]
          exHuge.priority).map (·.requested_gpu)).sum < exHuge.requested_gpu) := by
  refine ⟨by decide, ?_⟩
  exact (C3_preemption_planner [exHuge, exSmallVictim] exHuge 0 0 1 (by decide)).2

/-- C5: when the workload's cluster resolves, admission fails and the
Preemption Planner reports failure, the orchestrator sets the workload's
status to QUEUED, does not reach the Deployment Executor, preempts nothing,
and every other row — in particular every scanned lower-priority workload —
is carried into the new table unchanged. -/
theorem C5_queued_on_preemption_failure (clusters : List Cluster)
    (t : List Deployment) (did : String) (d : Deployment)
    (cr : ClusterResources)
    (hnodup : (t.map (·.id)).Nodup)
    (hfind : t.find? (fun x => decide (x.id = did)) = some d)
    (hcr : dictGet (get_cluster_resource_utilization clusters t) d.cluster_id = some cr)
    (hchk : (check_deployment_resources d (some cr)).1 = false)
    (hpre : (try_preemption t d (check_deployment_resources d (some cr)).2.1
      (check_deployment_resources d (some cr)).2.2.1
      (check_deployment_resources d (some cr)).2.2.2).1 = false) :
    (process_deployment clusters t did).outcome = ProcOutcome.queuedInsufficient ∧
    (process_deployment clusters t did).executor_invoked = false ∧
    (process_deployment clusters t did).preempted_ids = [] ∧
    (process_deployment clusters t did).table =
      updateDeployment t d.id (fun x => { x with status := DeploymentStatus.queued }) ∧
    (∀ x ∈ t, x.id ≠ d.id → x ∈ (process_deployment clusters t did).table) ∧
    (∀ x ∈ find_lower_priority_running_deployments t d.priority,
      x ∈ (process_deployment clusters t did).table) := by
  have hproc : process_deployment clusters t did =
      ⟨updateDeployment t d.id (fun x => { x with status := DeploymentStatus.queued }),
        ProcOutcome.queuedInsufficient, false, []⟩ := by
    unfold process_deployment
    rw [hfind]
    simp only [hcr, hchk, Bool.false_eq_true, if_false, hpre]
  refine ⟨by rw [hproc], by rw [hproc], by rw [hproc], by rw [hproc], ?_, ?_⟩
  · intro x hx hne
    rw [hproc]
    exact mem_updateDeployment_of_ne d.id _ hx hne
  · intro x hx
    obtain ⟨hmem, _, hlt⟩ := mem_find_lower t d.priority hx
    have hne : x.id ≠ d.id := by
      intro he
      have hd : d ∈ t := List.mem_of_find?_eq_some hfind
      have hxd : x = d := List.inj_on_of_nodup_map hnodup hmem hd he
      rw [hxd] at hlt
      exact lt_irrefl _ hlt
    rw [hproc]
    exact mem_updateDeployment_of_ne d.id _ hmem hne

/-- C5 witness: one cluster `s` with 1 cpu, a low-priority RUNNING workload
using it, and a high-priority candidate requesting 99 cpu: admission fails,
preempting everything still leaves 1 < 99, and the candidate is queued. -/
theorem C5_queued_on_preemption_failure_witness :
    (([exHuge, exSmallVictim].map (·.id)).Nodup ∧
      [exHuge, exSmallVictim].find? (fun x => decide (x.id = "h")) = some exHuge) ∧
    (process_deployment [exSmallCluster] [exHuge, exSmallVictim] "h").outcome =
      ProcOutcome.queuedInsufficient := by
  refine ⟨⟨by decide, by decide⟩, ?_⟩
  exact (C5_queued_on_preemption_failure [exSmallCluster] [exHuge, exSmallVictim]
    "h" exHuge ⟨⟨1, 1, 1⟩, ⟨1, 1, 0⟩⟩ (by decide) (by decide) (by decide)
    (by decide) (by decide)).1

/-- C7 witness. -/
theorem C7_cluster_not_found_witness :
    ([exOrphan].find? (fun x => decide (x.id = "w1")) = some exOrphan ∧
      dictGet (get_cluster_resource_utilization [] [exOrphan])
        exOrphan.cluster_id = none) ∧
    (process_deployment [] [exOrphan] "w1").outcome = ProcOutcome.clusterNotFound := by
  refine ⟨⟨by decide, by decide⟩, ?_⟩
  exact (C7_cluster_not_found [] [exOrphan] "w1" exOrphan (by decide) (by decide)).1

end Hypervisor
